import Mathlib

/-!
Verification of the StreamHub live-video fan-out relay against its
natural-language specification.  The development shallowly embeds the
TypeScript sources: pure functions become Lean functions, the stateful
`StreamManager` / `RTMPServer` classes become explicit state passing,
and filesystem / process effects become explicit operation traces.
JavaScript strings are modelled by `String` (compared by their `data`
character lists where structural reasoning is needed).
-/

namespace StreamHub

/-! ## Module lifecycle (src/core/lifecycle/ModuleLifecycle.ts) -/

/-- The `LifecycleState` enum of `ModuleLifecycle.ts`. -/
inductive LifecycleState where
  | created
  | initializing
  | initialized
  | activating
  | active
  | deactivating
  | deactivated
  | destroying
  | destroyed
  | error
deriving DecidableEq, Repr

/-- The string value each enum member carries in the source. -/
def LifecycleState.str : LifecycleState → String
  | .created => "created"
  | .initializing => "initializing"
  | .initialized => "initialized"
  | .activating => "activating"
  | .active => "active"
  | .deactivating => "deactivating"
  | .deactivated => "deactivated"
  | .destroying => "destroying"
  | .destroyed => "destroyed"
  | .error => "error"

/-- The mutable part of a `ModuleLifecycle` object: its module name and
current state (`state` starts as `CREATED` in the source constructor). -/
structure ModuleLifecycle where
  moduleName : String
  state : LifecycleState
deriving DecidableEq, Repr

/-- Model of `canInitialize()`: only from `CREATED`. -/
def canInitialize (l : ModuleLifecycle) : Bool :=
  l.state == LifecycleState.created

/-- Model of `canActivate()`: from `INITIALIZED` or `DEACTIVATED`. -/
def canActivate (l : ModuleLifecycle) : Bool :=
  l.state == LifecycleState.initialized || l.state == LifecycleState.deactivated

/-- Model of `canDeactivate()`: from `ACTIVE` or `ACTIVATING`. -/
def canDeactivate (l : ModuleLifecycle) : Bool :=
  l.state == LifecycleState.active || l.state == LifecycleState.activating

/-- Model of `canDestroy()`: from `CREATED`, `INITIALIZED`, `DEACTIVATED` or `ERROR`. -/
def canDestroy (l : ModuleLifecycle) : Bool :=
  l.state == LifecycleState.created || l.state == LifecycleState.initialized ||
    l.state == LifecycleState.deactivated || l.state == LifecycleState.error

/-- A lifecycle method returns the (possibly unchanged) object together with
`some msg` when the source method throws.  A TypeScript `throw` happens
before the assignment to `this.state`, so the object is returned unchanged
on the error path. -/
abbrev MarkResult := ModuleLifecycle × Option String

/-- Model of `markInitializing()`. -/
def markInitializing (l : ModuleLifecycle) : MarkResult :=
  if canInitialize l then ({ l with state := LifecycleState.initializing }, none)
  else (l, some ("Cannot initialize module " ++ l.moduleName ++ " in state " ++ LifecycleState.str l.state))

/-- Model of `markInitialized()`. -/
def markInitialized (l : ModuleLifecycle) : MarkResult :=
  if l.state == LifecycleState.initializing then ({ l with state := LifecycleState.initialized }, none)
  else (l, some ("Cannot mark as initialized in state " ++ LifecycleState.str l.state))

/-- Model of `markActivating()`. -/
def markActivating (l : ModuleLifecycle) : MarkResult :=
  if canActivate l then ({ l with state := LifecycleState.activating }, none)
  else (l, some ("Cannot activate module " ++ l.moduleName ++ " in state " ++ LifecycleState.str l.state))

/-- Model of `markActive()`. -/
def markActive (l : ModuleLifecycle) : MarkResult :=
  if l.state == LifecycleState.activating then ({ l with state := LifecycleState.active }, none)
  else (l, some ("Cannot mark as active in state " ++ LifecycleState.str l.state))

/-- Model of `markDeactivating()`. -/
def markDeactivating (l : ModuleLifecycle) : MarkResult :=
  if canDeactivate l then ({ l with state := LifecycleState.deactivating }, none)
  else (l, some ("Cannot deactivate module " ++ l.moduleName ++ " in state " ++ LifecycleState.str l.state))

/-- Model of `markDeactivated()`. -/
def markDeactivated (l : ModuleLifecycle) : MarkResult :=
  if l.state == LifecycleState.deactivating then ({ l with state := LifecycleState.deactivated }, none)
  else (l, some ("Cannot mark as deactivated in state " ++ LifecycleState.str l.state))

/-- Model of `markDestroying()`. -/
def markDestroying (l : ModuleLifecycle) : MarkResult :=
  if canDestroy l then ({ l with state := LifecycleState.destroying }, none)
  else (l, some ("Cannot destroy module " ++ l.moduleName ++ " in state " ++ LifecycleState.str l.state))

/-- Model of `markDestroyed()`. -/
def markDestroyed (l : ModuleLifecycle) : MarkResult :=
  if l.state == LifecycleState.destroying then ({ l with state := LifecycleState.destroyed }, none)
  else (l, some ("Cannot mark as destroyed in state " ++ LifecycleState.str l.state))

/-- Model of `markError()`: unguarded, reachable from any state. -/
def markError (l : ModuleLifecycle) : MarkResult :=
  ({ l with state := LifecycleState.error }, none)

/-- Names for the nine transition methods, to quantify over them. -/
inductive Mark where
  | initializing | initialized | activating | active
  | deactivating | deactivated | destroying | destroyed | err
deriving DecidableEq, Repr

/-- Dispatch a transition method by name. -/
def applyMark : Mark → ModuleLifecycle → MarkResult
  | .initializing => markInitializing
  | .initialized => markInitialized
  | .activating => markActivating
  | .active => markActive
  | .deactivating => markDeactivating
  | .deactivated => markDeactivated
  | .destroying => markDestroying
  | .destroyed => markDestroyed
  | .err => markError

/-- The guard of each method, read off the source: the `canX()` helpers for
the four `-ing` transitions, a single-state equality for the four `-ed`
transitions, and no guard at all for `markError`. -/
def markPermitted : Mark → LifecycleState → Bool
  | .initializing, st => st == LifecycleState.created
  | .initialized, st => st == LifecycleState.initializing
  | .activating, st => st == LifecycleState.initialized || st == LifecycleState.deactivated
  | .active, st => st == LifecycleState.activating
  | .deactivating, st => st == LifecycleState.active || st == LifecycleState.activating
  | .deactivated, st => st == LifecycleState.deactivating
  | .destroying, st => st == LifecycleState.created || st == LifecycleState.initialized ||
      st == LifecycleState.deactivated || st == LifecycleState.error
  | .destroyed, st => st == LifecycleState.destroying
  | .err, _ => true

/-- The state each method assigns when its guard passes. -/
def markTarget : Mark → LifecycleState
  | .initializing => LifecycleState.initializing
  | .initialized => LifecycleState.initialized
  | .activating => LifecycleState.activating
  | .active => LifecycleState.active
  | .deactivating => LifecycleState.deactivating
  | .deactivated => LifecycleState.deactivated
  | .destroying => LifecycleState.destroying
  | .destroyed => LifecycleState.destroyed
  | .err => LifecycleState.error

/-- The error message each method throws when its guard fails (for
`markError`, which never fails, an arbitrary placeholder). -/
def markErrMsg : Mark → ModuleLifecycle → String
  | .initializing, l => "Cannot initialize module " ++ l.moduleName ++ " in state " ++ LifecycleState.str l.state
  | .initialized, l => "Cannot mark as initialized in state " ++ LifecycleState.str l.state
  | .activating, l => "Cannot activate module " ++ l.moduleName ++ " in state " ++ LifecycleState.str l.state
  | .active, l => "Cannot mark as active in state " ++ LifecycleState.str l.state
  | .deactivating, l => "Cannot deactivate module " ++ l.moduleName ++ " in state " ++ LifecycleState.str l.state
  | .deactivated, l => "Cannot mark as deactivated in state " ++ LifecycleState.str l.state
  | .destroying, l => "Cannot destroy module " ++ l.moduleName ++ " in state " ++ LifecycleState.str l.state
  | .destroyed, l => "Cannot mark as destroyed in state " ++ LifecycleState.str l.state
  | .err, _ => ""

/-! ## Telemetry parser (src/services/StreamStatisticsParser.ts)

The parser works on single stderr lines of the transcoder.  JavaScript
strings are embedded as `List Char`; each compiled regex of the source is
embedded as an explicit matcher.  A JS `String.prototype.match` with an
unanchored regex searches for the leftmost match, which `searchPos` models
by trying every suffix from the left. -/

/-- JS `\s` (the whitespace characters that can occur in a single stderr
line). -/
def isWsChar (c : Char) : Bool :=
  c == ' ' || c == '\t' || c == '\n' || c == '\r'

/-- JS `\d`. -/
def isDigitChar (c : Char) : Bool :=
  c.isDigit

/-- JS character class `[\d.]`. -/
def isDotDigit (c : Char) : Bool :=
  c.isDigit || c == '.'

/-- JS `\w`. -/
def isWordChar (c : Char) : Bool :=
  c.isAlpha || c.isDigit || c == '_'

/-- Match a literal at the start of the input, returning the remainder. -/
def dropLit (lit : String) (l : List Char) : Option (List Char) :=
  if List.isPrefixOf lit.data l then some (List.drop lit.data.length l) else none

/-- Leftmost-match search: try the matcher at every suffix from the left,
as an unanchored JS regex does. -/
def searchPos {β : Type} (m : List Char → Option β) : List Char → Option β
  | [] => m []
  | c :: cs =>
    match m (c :: cs) with
    | some r => some r
    | none => searchPos m cs

/-- Model of `FRAME_REGEX = /frame=\s*(\d+)/` anchored at the current position;
returns the captured digits and the remainder after them. -/
def compFrame (l : List Char) : Option (List Char × List Char) :=
  match dropLit "frame=" l with
  | none => none
  | some r =>
    let r1 := r.dropWhile isWsChar
    let c := r1.takeWhile isDigitChar
    if c = [] then none else some (c, r1.dropWhile isDigitChar)

/-- Model of `FPS_REGEX = /fps=\s*([\d.]+)/` anchored at the current position. -/
def compFps (l : List Char) : Option (List Char × List Char) :=
  match dropLit "fps=" l with
  | none => none
  | some r =>
    let r1 := r.dropWhile isWsChar
    let c := r1.takeWhile isDotDigit
    if c = [] then none else some (c, r1.dropWhile isDotDigit)

/-- The `q=([\d.]+)` component of the fused statistics regex (no `\s*`). -/
def compQ (l : List Char) : Option (List Char × List Char) :=
  match dropLit "q=" l with
  | none => none
  | some r =>
    let c := r.takeWhile isDotDigit
    if c = [] then none else some (c, r.dropWhile isDotDigit)

/-- The `size=\s*(\d+)\s*kB` component of the fused statistics regex. -/
def compSize (l : List Char) : Option (List Char × List Char) :=
  match dropLit "size=" l with
  | none => none
  | some r =>
    let r1 := r.dropWhile isWsChar
    let c := r1.takeWhile isDigitChar
    if c = [] then none
    else
      match dropLit "kB" ((r1.dropWhile isDigitChar).dropWhile isWsChar) with
      | none => none
      | some r2 => some (c, r2)

/-- Model of `TIME_REGEX = /time=(\d{2}):(\d{2}):(\d{2}\.\d{2})/` anchored at the
current position; returns the three captures (hours, minutes,
seconds-with-fraction) and the remainder. -/
def compTime (l : List Char) : Option ((List Char × List Char × List Char) × List Char) :=
  match dropLit "time=" l with
  | none => none
  | some r =>
    match r with
    | a :: b :: s1 :: c :: d :: s2 :: e :: f :: s3 :: g :: h :: rest =>
      if isDigitChar a && isDigitChar b && s1 == ':' && isDigitChar c && isDigitChar d &&
          s2 == ':' && isDigitChar e && isDigitChar f && s3 == '.' && isDigitChar g &&
          isDigitChar h then
        some (([a, b], [c, d], [e, f, '.', g, h]), rest)
      else none
    | _ => none

/-- Model of `BITRATE_REGEX = /bitrate=\s*([\d.]+)\s*kbits\/s/` anchored at the
current position.  The greedy `[\d.]+` never needs backtracking here: a
shorter capture would leave a digit or dot where `\s*k` must match. -/
def compBitrate (l : List Char) : Option (List Char × List Char) :=
  match dropLit "bitrate=" l with
  | none => none
  | some r =>
    let r1 := r.dropWhile isWsChar
    let c := r1.takeWhile isDotDigit
    if c = [] then none
    else
      match dropLit "kbits/s" ((r1.dropWhile isDotDigit).dropWhile isWsChar) with
      | none => none
      | some r2 => some (c, r2)

/-- The `speed=\s*([\d.]+)x` component of the fused statistics regex. -/
def compSpeed (l : List Char) : Option (List Char × List Char) :=
  match dropLit "speed=" l with
  | none => none
  | some r =>
    let r1 := r.dropWhile isWsChar
    let c := r1.takeWhile isDotDigit
    if c = [] then none
    else
      match dropLit "x" (r1.dropWhile isDotDigit) with
      | none => none
      | some r2 => some (c, r2)

/-- Model of `RESOLUTION_REGEX = /(\d{2,5}x\d{2,5})/` anchored at the current
position.  At a fixed position the first `\d{2,5}` must consume the whole
digit run before the `x` (backtracking onto a digit cannot produce the
literal `x`), so the run length must be between 2 and 5; the second group
greedily takes up to five digits and needs at least two. -/
def compResolution (l : List Char) : Option (List Char × List Char) :=
  let d1 := l.takeWhile isDigitChar
  if 2 ≤ d1.length ∧ d1.length ≤ 5 then
    match l.drop d1.length with
    | 'x' :: r2 =>
      let d2 := r2.takeWhile isDigitChar
      if 2 ≤ d2.length then some (d1 ++ 'x' :: d2.take 5, r2.drop (d2.take 5).length)
      else none
    | _ => none
  else none

/-- Model of `CODEC_REGEX = /Video:\s*(\w+)/` anchored at the current position:
`\w+` needs at least one word character after the optional whitespace. -/
def compCodec (l : List Char) : Option (List Char × List Char) :=
  match dropLit "Video:" l with
  | none => none
  | some r =>
    let r1 := r.dropWhile isWsChar
    let c := r1.takeWhile isWordChar
    if c = [] then none else some (c, r1.dropWhile isWordChar)

/-- The nine captures of the fused `STATS_REGEX`. -/
structure FusedCaps where
  frame : List Char
  fps : List Char
  q : List Char
  size : List Char
  timeH : List Char
  timeM : List Char
  timeS : List Char
  bitrate : List Char
  speed : List Char
deriving DecidableEq, Repr

/-- The fused `STATS_REGEX` anchored at the current position.  Each lazy
`.*?` between components is modelled by scanning forward for the first
position where the next component matches (the components' literal heads
make later backtracking irrelevant for the lines the transcoder emits). -/
def statsFullMatchAt (l : List Char) : Option FusedCaps :=
  match compFrame l with
  | none => none
  | some (c1, r1) =>
    match searchPos compFps r1 with
    | none => none
    | some (c2, r2) =>
      match searchPos compQ r2 with
      | none => none
      | some (c3, r3) =>
        match searchPos compSize r3 with
        | none => none
        | some (c4, r4) =>
          match searchPos compTime r4 with
          | none => none
          | some (t, r5) =>
            match searchPos compBitrate r5 with
            | none => none
            | some (c8, r6) =>
              match searchPos compSpeed r6 with
              | none => none
              | some (c9, _) =>
                some { frame := c1, fps := c2, q := c3, size := c4, timeH := t.1,
                       timeM := t.2.1, timeS := t.2.2, bitrate := c8, speed := c9 }

/-- Model of `parseInt(s, 10)` on an all-digit capture. -/
def digitsVal (l : List Char) : Nat :=
  l.foldl (fun a c => a * 10 + (c.toNat - 48)) 0

/-- Model of `parseFloat` on a `[\d.]+` capture, as a rational: an integer part, an
optional dot and fractional part, anything after a second dot ignored.
(Degenerate captures such as `"."`, which JS turns into NaN, are mapped to
0; no claim depends on the numeric values.) -/
def parseFloatQ (l : List Char) : ℚ :=
  let ip := l.takeWhile isDigitChar
  match l.drop ip.length with
  | '.' :: r =>
    let fp := r.takeWhile isDigitChar
    (digitsVal ip : ℚ) + (digitsVal fp : ℚ) / ((10 : ℚ) ^ fp.length)
  | _ => (digitsVal ip : ℚ)

/-- Model of `H*3600 + M*60 + S` from the three time captures. -/
def hmsToSeconds (h m s : List Char) : ℚ :=
  (digitsVal h : ℚ) * 3600 + (digitsVal m : ℚ) * 60 + parseFloatQ s

/-- The `ParsedStatistics` interface: every field optional. -/
structure ParsedStatistics where
  frame : Option Nat := none
  fps : Option ℚ := none
  bitrate : Option ℚ := none
  size : Option Nat := none
  time : Option ℚ := none
  speed : Option ℚ := none
  quality : Option ℚ := none
  resolution : Option (List Char) := none
  codec : Option (List Char) := none
deriving DecidableEq, Repr

/-- Model of `StreamStatisticsParser.parseStderrLine`: first the fused
`STATS_REGEX`; on failure the per-field fallback, where only the frame,
fps, bitrate and time matchers set `hasStats` — resolution and codec are
attached but never set it — and `null` is returned when `hasStats` is
false. -/
def parseStderrLine (line : List Char) : Option ParsedStatistics :=
  match searchPos statsFullMatchAt line with
  | some caps =>
    some { frame := some (digitsVal caps.frame)
           fps := some (parseFloatQ caps.fps)
           quality := some (parseFloatQ caps.q)
           size := some (digitsVal caps.size)
           time := some (hmsToSeconds caps.timeH caps.timeM caps.timeS)
           bitrate := some (parseFloatQ caps.bitrate)
           speed := some (parseFloatQ caps.speed) }
  | none =>
    let fr := searchPos compFrame line
    let fp := searchPos compFps line
    let br := searchPos compBitrate line
    let tm := searchPos compTime line
    let res := searchPos compResolution line
    let cod := searchPos compCodec line
    let hasStats := fr.isSome || fp.isSome || br.isSome || tm.isSome
    if hasStats then
      some { frame := (fr.map fun x => digitsVal x.1)
             fps := (fp.map fun x => parseFloatQ x.1)
             bitrate := (br.map fun x => parseFloatQ x.1)
             time := (tm.map fun x => hmsToSeconds x.1.1 x.1.2.1 x.1.2.2)
             resolution := (res.map Prod.fst)
             codec := (cod.map Prod.fst) }
    else none

/-- A stream-info line carrying a codec and a resolution but no numeric
statistics field. -/
def sampleInfoLine : List Char :=
  String.data "Stream #0:0: Video: h264 (High), yuv420p, 1920x1080"

/-! ## Relay child output URL
(`StreamManager.startPlatformStreamInternal`, the `outputUrl` block) -/

/-- JS `String.prototype.startsWith`. -/
def jsStartsWith (s p : String) : Bool :=
  List.isPrefixOf p.data s.data

/-- JS `String.prototype.endsWith`. -/
def jsEndsWith (s p : String) : Bool :=
  List.isSuffixOf p.data s.data

/-- Model of `url.replace(/\/$/, '')`: drop one trailing slash when present (the
regex is anchored and not global, so it removes at most one). -/
def stripTrailingSlash (s : String) : String :=
  if jsEndsWith s "/" then String.mk s.data.dropLast else s

/-- The `outputUrl` computation of `startPlatformStreamInternal`: RTMPS
URLs get the AWS-IVS `/app/` application path unless they already carry
it; all other URLs get `/{streamKey}` appended. -/
def composeOutputUrl (rtmpUrl streamKey : String) : String :=
  if jsStartsWith rtmpUrl "rtmps://" then
    if jsEndsWith rtmpUrl "/app" then rtmpUrl ++ "/" ++ streamKey
    else if jsEndsWith rtmpUrl "/app/" then rtmpUrl ++ streamKey
    else stripTrailingSlash rtmpUrl ++ "/app" ++ "/" ++ streamKey
  else rtmpUrl ++ "/" ++ streamKey

/-! ## Configuration store (src Config.ts)

`Config` embeds the Zod-validated config type; the `Yaml*` structures
embed the snake_case document shape that `saveConfig` serializes (an
`Option` field models a key the `yaml` library omits when its value is
`undefined`).  The YAML library's `stringify`/`parse` pair is treated as
faithful, so `saveConfig` is modelled as emitting the document value and
`loadConfig` as consuming one (`none` = file not found). -/

/-- The parsed `PlatformConfigSchema` value (a destination).  `metadata`
is an opaque string map. -/
structure PlatformConfig where
  id : Option String
  name : String
  displayName : Option String
  rtmpUrl : String
  streamKey : String
  enabled : Bool
  metadata : List (String × String)
deriving DecidableEq, Repr

/-- The parsed `OBSConfigSchema` value. `password` is
`string | null | undefined`: `none` = absent, `some none` = null. -/
structure OBSConfig where
  host : String
  port : Int
  password : Option (Option String)
deriving DecidableEq, Repr

/-- The parsed `RTMPServerConfigSchema` value. -/
structure RTMPServerConfig where
  host : String
  port : Int
  appName : String
  streamKey : String
  enabled : Bool
deriving DecidableEq, Repr

/-- The parsed `StreamManagerConfigSchema` value. -/
structure StreamManagerConfig where
  obs : OBSConfig
  rtmpServer : RTMPServerConfig
  autoReconnect : Bool
  reconnectDelay : Int
  maxReconnectAttempts : Int
  platforms : List PlatformConfig
deriving DecidableEq, Repr

/-- The parsed `UIConfigSchema` value. -/
structure UIConfig where
  host : String
  port : Int
  debug : Bool
deriving DecidableEq, Repr

/-- The parsed root `ConfigSchema` value. -/
structure Config where
  streamManager : StreamManagerConfig
  ui : UIConfig
  version : String
deriving DecidableEq, Repr

/-- One entry of the on-disk `platforms:` list (snake_case canonical
form, as written by `saveConfig`). -/
structure YamlPlatform where
  id : Option String
  name : String
  display_name : Option String
  rtmp_url : String
  stream_key : String
  enabled : Bool
  metadata : List (String × String)
deriving DecidableEq, Repr

/-- The on-disk `obs:` block. -/
structure YamlObs where
  host : String
  port : Int
  password : Option (Option String)
deriving DecidableEq, Repr

/-- The on-disk `rtmp_server:` block. -/
structure YamlRtmpServer where
  host : String
  port : Int
  app_name : String
  stream_key : String
  enabled : Bool
deriving DecidableEq, Repr

/-- The on-disk `stream_manager:` block. -/
structure YamlStreamManager where
  obs : YamlObs
  rtmp_server : YamlRtmpServer
  auto_reconnect : Bool
  reconnect_delay : Int
  max_reconnect_attempts : Int
  platforms : List YamlPlatform
deriving DecidableEq, Repr

/-- The on-disk `ui:` block. -/
structure YamlUI where
  host : String
  port : Int
  debug : Bool
deriving DecidableEq, Repr

/-- The whole on-disk document. -/
structure YamlDoc where
  version : String
  stream_manager : YamlStreamManager
  ui : YamlUI
deriving DecidableEq, Repr

/-- The per-platform camelCase → snake_case mapping of `saveConfig`
(stream keys are written verbatim — never masked in the file). -/
def platformToYaml (p : PlatformConfig) : YamlPlatform :=
  { id := p.id, name := p.name, display_name := p.displayName, rtmp_url := p.rtmpUrl,
    stream_key := p.streamKey, enabled := p.enabled, metadata := p.metadata }

/-- The `yamlData` value `saveConfig` serializes. -/
def configToYamlDoc (c : Config) : YamlDoc :=
  { version := c.version,
    stream_manager :=
      { obs := { host := c.streamManager.obs.host, port := c.streamManager.obs.port,
                 password := c.streamManager.obs.password },
        rtmp_server := { host := c.streamManager.rtmpServer.host,
                         port := c.streamManager.rtmpServer.port,
                         app_name := c.streamManager.rtmpServer.appName,
                         stream_key := c.streamManager.rtmpServer.streamKey,
                         enabled := c.streamManager.rtmpServer.enabled },
        auto_reconnect := c.streamManager.autoReconnect,
        reconnect_delay := c.streamManager.reconnectDelay,
        max_reconnect_attempts := c.streamManager.maxReconnectAttempts,
        platforms := c.streamManager.platforms.map platformToYaml },
    ui := { host := c.ui.host, port := c.ui.port, debug := c.ui.debug } }

/-- The default configuration built inside `loadConfig`. -/
def defaultConfig : Config :=
  { streamManager :=
      { obs := { host := "localhost", port := 4455, password := some none },
        rtmpServer := { host := "localhost", port := 1935, appName := "live",
                        streamKey := "obs", enabled := true },
        autoReconnect := true, reconnectDelay := 5, maxReconnectAttempts := 10,
        platforms := [] },
    ui := { host := "0.0.0.0", port := 8000, debug := false },
    version := "1.0.0" }

/-- Model of `platform_${Date.now()}_${index}`, the id generated at load for a
platform whose `id` key is absent or falsy (`Date.now()` is passed in as
`now`). -/
def genPlatformId (now : Int) (idx : Nat) : String :=
  "platform_" ++ toString now ++ "_" ++ toString idx

/-- One entry of the snake_case platform mapping in `loadConfig`
(`{...p, id: p.id || generated, displayName: p.display_name, ...}`). -/
def loadPlatform (now : Int) (idx : Nat) (p : YamlPlatform) : PlatformConfig :=
  { id := some (match p.id with
      | some s => if s = "" then genPlatformId now idx else s
      | none => genPlatformId now idx),
    name := p.name, displayName := p.display_name, rtmpUrl := p.rtmp_url,
    streamKey := p.stream_key, enabled := p.enabled, metadata := p.metadata }

/-- The `.map((p, index) => ...)` over the on-disk platform list. -/
def loadPlatforms (now : Int) : Nat → List YamlPlatform → List PlatformConfig
  | _, [] => []
  | i, p :: ps => loadPlatform now i p :: loadPlatforms now (i + 1) ps

/-- The environment variables `loadConfig` consults. -/
structure EnvVars where
  obsHost : Option String := none
  obsPort : Option String := none
  obsPassword : Option String := none
  uiHost : Option String := none
  uiPort : Option String := none
  uiDebug : Option String := none
deriving DecidableEq, Repr

/-- An environment with none of the recognized variables set. -/
def EnvVars.empty : EnvVars := {}

/-- Model of `parseInt` on an environment value (well-formed numerals; the NaN
that JS produces on garbage is not modelled — no claim depends on it). -/
def parseIntJS (s : String) : Int :=
  (s.toInt?).getD 0

/-- The environment-variable overrides at the end of `loadConfig`. -/
def applyEnv (env : EnvVars) (c : Config) : Config :=
  let c := match env.obsHost with
    | some h => { c with streamManager := { c.streamManager with
        obs := { c.streamManager.obs with host := h } } }
    | none => c
  let c := match env.obsPort with
    | some p => { c with streamManager := { c.streamManager with
        obs := { c.streamManager.obs with port := parseIntJS p } } }
    | none => c
  let c := match env.obsPassword with
    | some pw => { c with streamManager := { c.streamManager with
        obs := { c.streamManager.obs with password := some (some pw) } } }
    | none => c
  let c := match env.uiHost with
    | some h => { c with ui := { c.ui with host := h } }
    | none => c
  let c := match env.uiPort with
    | some p => { c with ui := { c.ui with port := parseIntJS p } }
    | none => c
  match env.uiDebug with
  | some d => { c with ui := { c.ui with debug := d == "true" } }
  | none => c

/-- Model of `loadConfig` on the modelled document fragment: a missing file yields
the built-in defaults; otherwise the snake_case branch converts the
document (note the `app_name ||` / `stream_key ||` fallbacks to the
defaults, the generated platform ids, and the
`if (!configData.version)` fallback that replaces a falsy version with
the default), the defaults-merge block is the identity on a document
this shape, and the Zod parse succeeds.  The mtime cache is bypassed (a
fresh load); environment overrides apply last. -/
def loadConfig (doc : Option YamlDoc) (env : EnvVars) (now : Int) : Config :=
  match doc with
  | none => applyEnv env defaultConfig
  | some d =>
    applyEnv env
      { streamManager :=
          { obs := { host := d.stream_manager.obs.host, port := d.stream_manager.obs.port,
                     password := some (match d.stream_manager.obs.password with
                       | some v => v
                       | none => none) },
            rtmpServer := { host := d.stream_manager.rtmp_server.host,
                            port := d.stream_manager.rtmp_server.port,
                            appName := if d.stream_manager.rtmp_server.app_name = "" then "live"
                              else d.stream_manager.rtmp_server.app_name,
                            streamKey := if d.stream_manager.rtmp_server.stream_key = "" then "obs"
                              else d.stream_manager.rtmp_server.stream_key,
                            enabled := d.stream_manager.rtmp_server.enabled },
            autoReconnect := d.stream_manager.auto_reconnect,
            reconnectDelay := d.stream_manager.reconnect_delay,
            maxReconnectAttempts := d.stream_manager.max_reconnect_attempts,
            platforms := loadPlatforms now 0 d.stream_manager.platforms },
        ui := { host := d.ui.host, port := d.ui.port, debug := d.ui.debug },
        version := if d.version = "" then defaultConfig.version else d.version }

/-- The in-memory cache entry of the config store. -/
structure ConfigCache where
  data : Config
  timestamp : Int
  mtime : Int
deriving DecidableEq, Repr

/-- The filesystem operations `saveConfig` can perform.  `mkdirParent p`
stands for `mkdirSync(join(p, '..'), {recursive: true})`; `writeFile`
records the document value written. -/
inductive FsOp where
  | mkdirParent (path : String)
  | writeFile (path : String) (doc : YamlDoc)
  | rename (src dst : String)
deriving DecidableEq, Repr

/-- Whether an operation is a rename. -/
def FsOp.isRename : FsOp → Bool
  | .rename _ _ => true
  | _ => false

/-- Whether an operation writes a file. -/
def FsOp.isWrite : FsOp → Bool
  | .writeFile _ _ => true
  | _ => false

/-- Model of `saveConfig(config, configPath)`: create the parent directory, then a
single `writeFile(configFile, stringify(yamlData))`, then
`invalidateConfigCache()`.  Returns the operation trace and the cache
value after the call. -/
def saveConfig (c : Config) (configFile : String) (_cache : Option ConfigCache) :
    List FsOp × Option ConfigCache :=
  ([FsOp.mkdirParent configFile, FsOp.writeFile configFile (configToYamlDoc c)], none)

/-- JS `String.prototype.trim`: strip leading and trailing whitespace. -/
def jsTrim (s : String) : String :=
  String.mk (((s.data.dropWhile isWsChar).reverse.dropWhile isWsChar).reverse)

/-- The platform filter applied in `setupRegistry` (the Electron server
bootstrap) before handing the loaded platforms to the stream manager:
entries with a falsy `rtmpUrl`, a falsy `streamKey` or a whitespace-only
`streamKey` are skipped; kept entries are rebuilt field by field. -/
def setupRegistryPlatforms (ps : List PlatformConfig) : List PlatformConfig :=
  ps.filterMap fun p =>
    if p.rtmpUrl ≠ "" ∧ p.streamKey ≠ "" ∧ jsTrim p.streamKey ≠ "" then
      some { id := p.id, name := p.name, displayName := p.displayName, rtmpUrl := p.rtmpUrl,
             streamKey := p.streamKey, enabled := p.enabled, metadata := p.metadata }
    else none

/-- A schema-valid configuration whose single platform has no id. -/
def cfgNoId : Config :=
  { defaultConfig with streamManager := { defaultConfig.streamManager with platforms :=
      [{ id := none, name := "twitch", displayName := none,
         rtmpUrl := "rtmp://live.twitch.tv/app", streamKey := "key1", enabled := true,
         metadata := [] }] } }

/-- A schema-valid configuration satisfying the round-trip side
conditions. -/
def cfgRoundTrip : Config :=
  { defaultConfig with streamManager := { defaultConfig.streamManager with platforms :=
      [{ id := some "tw1", name := "twitch", displayName := some "Twitch",
         rtmpUrl := "rtmp://live.twitch.tv/app", streamKey := "sk_live_1", enabled := true,
         metadata := [] }] } }

/-- An on-disk document with one destination whose url is empty and one
well-formed destination. -/
def docMixed : YamlDoc :=
  { version := "1.0.0",
    stream_manager :=
      { obs := { host := "localhost", port := 4455, password := some none },
        rtmp_server := { host := "localhost", port := 1935, app_name := "live",
                         stream_key := "obs", enabled := true },
        auto_reconnect := true, reconnect_delay := 5, max_reconnect_attempts := 10,
        platforms :=
          [{ id := some "d1", name := "twitch", display_name := none, rtmp_url := "",
             stream_key := "k1", enabled := true, metadata := [] },
           { id := some "d2", name := "youtube", display_name := none,
             rtmp_url := "rtmp://a.rtmp.youtube.com/live2", stream_key := "k2",
             enabled := true, metadata := [] }] },
    ui := { host := "0.0.0.0", port := 8000, debug := false } }

/-- The well-formed destination of `docMixed` as it emerges from load and
filter. -/
def platformD2 : PlatformConfig :=
  { id := some "d2", name := "youtube", displayName := none,
    rtmpUrl := "rtmp://a.rtmp.youtube.com/live2", streamKey := "k2", enabled := true,
    metadata := [] }

/-! ## Relay supervisor (src StreamManager.ts)

JavaScript `Map`s keyed by platform id are embedded as association lists
in insertion order (`mapSet` overwrites in place or appends, as
`Map.set` does), and the `Set` of changed platform ids as a list without
duplicates in insertion order. -/

/-- Model of `Map.get`: the first (unique) entry with the key. -/
def mapGet {β : Type} (m : List (String × β)) (k : String) : Option β :=
  (m.find? (fun e => e.1 == k)).map (fun e => e.2)

/-- Model of `Map.set`: overwrite in place, or append when absent. -/
def mapSet {β : Type} (m : List (String × β)) (k : String) (v : β) : List (String × β) :=
  if (m.find? (fun e => e.1 == k)).isSome then
    m.map (fun e => if e.1 == k then (k, v) else e)
  else m ++ [(k, v)]

/-- Model of `Map.delete`. -/
def mapDel {β : Type} (m : List (String × β)) (k : String) : List (String × β) :=
  m.filter (fun e => e.1 != k)

/-- Model of `Set.add`. -/
def addSet (s : List String) (k : String) : List String :=
  if k ∈ s then s else s ++ [k]

/-- Model of `Set.delete`. -/
def delSet (s : List String) (k : String) : List String :=
  s.filter (fun x => x != k)

/-- The `{connected, streaming}` pair stored per platform id. -/
structure PlatState where
  connected : Bool
  streaming : Bool
deriving DecidableEq, Repr

/-- The observable fields of a spawned FFmpeg child: `killed` and whether
`exitCode` is non-null. -/
structure ProcInfo where
  killed : Bool
  exited : Bool
deriving DecidableEq, Repr

/-- The supervisor state of `StreamManager`: `platforms` is
`this.config?.platforms` (`none` = not configured), the maps are keyed by
platform id, `adapters` holds the registered adapter names, and the two
service flags stand for a resolvable stream provider / WebSocket
service. -/
structure SMState where
  platforms : Option (List PlatformConfig)
  ffmpegProcesses : List (String × ProcInfo)
  platformStreamStates : List (String × PlatState)
  platformStatistics : List (String × ParsedStatistics)
  statisticsChanged : List String
  adapters : List String
  streamProviderAvailable : Bool
  wsAvailable : Bool
deriving DecidableEq, Repr

/-- Model of `platformConfig.id || platformConfig.name` (an empty id is falsy). -/
def platformIdentifier (pc : PlatformConfig) : String :=
  match pc.id with
  | some s => if s = "" then pc.name else s
  | none => pc.name

/-- One iteration of the `rebuildPlatformConfigMap` loop: map the
platform by its identifier, and also by name when a truthy id differs
from the name. -/
def rebuildStep (m : List (String × PlatformConfig)) (pc : PlatformConfig) :
    List (String × PlatformConfig) :=
  let m1 := mapSet m (platformIdentifier pc) pc
  match pc.id with
  | some s => if s ≠ "" ∧ s ≠ pc.name then mapSet m1 pc.name pc else m1
  | none => m1

/-- Model of `rebuildPlatformConfigMap`. -/
def rebuildPlatformConfigMap (ps : List PlatformConfig) : List (String × PlatformConfig) :=
  ps.foldl rebuildStep []

/-- Model of `getPlatformConfig`: O(1) lookup in the (lazily rebuilt) config map;
modelled by always deriving the map from the current config. -/
def getPlatformConfig (s : SMState) (idOrName : String) : Option PlatformConfig :=
  match s.platforms with
  | none => none
  | some ps => mapGet (rebuildPlatformConfigMap ps) idOrName

/-- One entry of the `platforms` record assembled by `getStatus`. -/
structure PlatformStatusEntry where
  platform : String
  status : String
  connected : Bool
  streaming : Bool
  cfgDisplayName : Option String
  cfgEnabled : Bool
deriving DecidableEq, Repr

/-- The per-destination projection of `getStatus`: the stored stream
state is the source of truth — when it says disconnected the result is
`idle` regardless of the child's liveness. -/
def getStatusEntry (s : SMState) (pc : PlatformConfig) : PlatformStatusEntry :=
  let platformId := platformIdentifier pc
  let streamState := mapGet s.platformStreamStates platformId
  let proc := mapGet s.ffmpegProcesses platformId
  let isProcessAlive := match proc with
    | some p => !p.killed && !p.exited
    | none => false
  let stateSaysDisconnected := match streamState with
    | some st => !st.streaming && !st.connected
    | none => false
  let isStreaming := !stateSaysDisconnected && isProcessAlive &&
    ((streamState.map PlatState.streaming).getD false)
  let isConnected := !stateSaysDisconnected && isProcessAlive &&
    ((streamState.map PlatState.connected).getD false)
  let finalStatus :=
    if stateSaysDisconnected then "idle"
    else if isStreaming then "streaming"
    else if isConnected then "connected"
    else "idle"
  { platform := pc.name, status := finalStatus,
    connected := isConnected && !stateSaysDisconnected,
    streaming := isStreaming && !stateSaysDisconnected,
    cfgDisplayName := pc.displayName, cfgEnabled := pc.enabled }

/-- The `platformStatuses` record of `getStatus` (keyed by platform id;
a later platform with the same id overwrites the earlier entry, as
assignment to a JS record field does). -/
def getStatusPlatforms (s : SMState) : List (String × PlatformStatusEntry) :=
  match s.platforms with
  | none => []
  | some ps => ps.foldl (fun acc pc => mapSet acc (platformIdentifier pc) (getStatusEntry s pc)) []

/-- Model of `stopPlatformStream`: resolve the platform config, require an
adapter, kill and drop the child from the process table immediately, set
the stored stream state to disconnected before broadcasting, and clear
the statistics and changed-set entries.  Returns the platform identifier
used. -/
def stopPlatformStream (s : SMState) (idOrName : String) :
    Except String (SMState × String) :=
  match s.platforms with
  | none => Except.error "Stream manager configuration is not set"
  | some _ =>
    match getPlatformConfig s idOrName with
    | none => Except.error ("Platform configuration not found: " ++ idOrName)
    | some pc =>
      let platformIdent := platformIdentifier pc
      if pc.name ∈ s.adapters then
        Except.ok
          ({ s with
              ffmpegProcesses := mapDel s.ffmpegProcesses platformIdent,
              platformStreamStates :=
                mapSet s.platformStreamStates platformIdent ⟨false, false⟩,
              platformStatistics := mapDel s.platformStatistics platformIdent,
              statisticsChanged := delSet s.statisticsChanged platformIdent },
            platformIdent)
      else Except.error ("Platform adapter not found: " ++ pc.name)

/-- The externally determined outcomes inside `startPlatformStream`:
whether `adapter.configure` succeeds and whether the FFmpeg binary is
found by the pre-spawn check. -/
structure StartEnv where
  configureOk : Bool
  ffmpegAvailable : Bool
deriving DecidableEq, Repr

/-- Model of `startPlatformStream`: provider and config must be present, the
platform must resolve and be enabled; if a child already exists for the
id the call returns `true` without further effect; otherwise configure,
check the binary, spawn (recording the fresh child) and set the stream
state to connected+streaming.  The `catch` block records a disconnected
stream state before rethrowing.  Returns the state paired with the
result. -/
def startPlatformStream (s : SMState) (idOrName : String) (env : StartEnv) :
    SMState × Except String Bool :=
  if s.streamProviderAvailable = false then
    (s, Except.error "Stream provider is not available")
  else
    match s.platforms with
    | none => (s, Except.error "Stream manager configuration is not set")
    | some _ =>
      match getPlatformConfig s idOrName with
      | none => (s, Except.error ("Platform configuration not found: " ++ idOrName))
      | some pc =>
        if pc.enabled = false then
          (s, Except.error ("Platform " ++ idOrName ++ " is disabled"))
        else
          let platformIdent := platformIdentifier pc
          if (mapGet s.ffmpegProcesses platformIdent).isSome then (s, Except.ok true)
          else if pc.name ∈ s.adapters then
            if env.configureOk = false then
              ({ s with platformStreamStates :=
                  mapSet s.platformStreamStates platformIdent ⟨false, false⟩ },
                Except.error "Failed to configure platform")
            else if env.ffmpegAvailable = false then
              ({ s with platformStreamStates :=
                  mapSet s.platformStreamStates platformIdent ⟨false, false⟩ },
                Except.error "FFmpeg is not available")
            else
              ({ s with
                  ffmpegProcesses := mapSet s.ffmpegProcesses platformIdent ⟨false, false⟩,
                  platformStreamStates :=
                    mapSet s.platformStreamStates platformIdent ⟨true, true⟩ },
                Except.ok true)
          else (s, Except.error ("Platform adapter not found: " ++ pc.name))

/-- One element of the `statistics` envelope (`StreamStatistics` of the
WebSocket service interface). -/
structure StatEntry where
  platformId : String
  platformName : String
  bitrate : Option ℚ
  fps : Option ℚ
  resolution : Option (List Char)
  codec : Option (List Char)
  status : String
  uptime : Option ℚ
  errors : Nat
deriving DecidableEq, Repr

/-- Model of `platformConfig.displayName || platformConfig.name`. -/
def displayNameOrName (pc : PlatformConfig) : String :=
  match pc.displayName with
  | some d => if d = "" then pc.name else d
  | none => pc.name

/-- The statistics collection loop inside `broadcastStatisticsUpdate`:
one entry per changed platform id that resolves in the config map. -/
def statisticsEntries (s : SMState) : List StatEntry :=
  match s.platforms with
  | none => []
  | some ps =>
    s.statisticsChanged.filterMap fun platformId =>
      match mapGet (rebuildPlatformConfigMap ps) platformId with
      | none => none
      | some pc =>
        let stats := mapGet s.platformStatistics platformId
        let streamState := mapGet s.platformStreamStates platformId
        let proc := mapGet s.ffmpegProcesses platformId
        let isStreaming := (match proc with
          | some p => !p.killed
          | none => false) && ((streamState.map PlatState.streaming).getD false)
        some { platformId := platformId, platformName := displayNameOrName pc,
               bitrate := stats.bind ParsedStatistics.bitrate,
               fps := stats.bind ParsedStatistics.fps,
               resolution := stats.bind ParsedStatistics.resolution,
               codec := stats.bind ParsedStatistics.codec,
               status := if isStreaming then "streaming" else "idle",
               uptime := stats.bind ParsedStatistics.time, errors := 0 }

/-- Model of `broadcastStatisticsUpdate`: skip when the WebSocket service is
unavailable or nothing changed; otherwise collect an entry for every
changed id that resolves in the config map (`statisticsEntries`), clear
the changed set, and broadcast only when the collected array is
nonempty.  Returns the new state and the envelope broadcast, if any. -/
def broadcastStatisticsUpdate (s : SMState) : SMState × Option (List StatEntry) :=
  if s.wsAvailable = false then (s, none)
  else if s.statisticsChanged = [] then (s, none)
  else
    let entries := statisticsEntries s
    let s1 := { s with statisticsChanged := [] }
    if entries = [] then (s1, none) else (s1, some entries)

/-- The events that touch the statistics pipeline: a parsed stats line
from a child's stderr (which stores the snapshot, marks the id changed
and schedules the debounced broadcast), the firing of the debounce or
interval timer, a stop request, and a child `close`/`error` handler. -/
inductive Ev where
  | statsLine (platformId : String) (st : ParsedStatistics)
  | flush
  | stopPlat (idOrName : String)
  | procClosed (platformId : String)
deriving DecidableEq, Repr

/-- One step of the statistics pipeline; only `flush` can emit an
envelope. -/
def stepEv (s : SMState) : Ev → SMState × Option (List StatEntry)
  | .statsLine platformId st =>
    ({ s with platformStatistics := mapSet s.platformStatistics platformId st,
              statisticsChanged := addSet s.statisticsChanged platformId }, none)
  | .flush => broadcastStatisticsUpdate s
  | .stopPlat idOrName =>
    (match stopPlatformStream s idOrName with
      | Except.ok (s1, _) => s1
      | Except.error _ => s, none)
  | .procClosed platformId =>
    ({ s with
        ffmpegProcesses := mapDel s.ffmpegProcesses platformId,
        platformStatistics := mapDel s.platformStatistics platformId,
        statisticsChanged := delSet s.statisticsChanged platformId,
        platformStreamStates := mapSet s.platformStreamStates platformId ⟨false, false⟩ },
      none)

/-- The state after a sequence of events. -/
def runState (s : SMState) : List Ev → SMState
  | [] => s
  | e :: es => runState (stepEv s e).1 es

/-- The per-event emission log of a sequence of events (same length as
the event list; `none` where no envelope was broadcast). -/
def runLog (s : SMState) : List Ev → List (Option (List StatEntry))
  | [] => []
  | e :: es => (stepEv s e).2 :: runLog (stepEv s e).1 es

/-- Whether an emission contains an entry for the destination id. -/
def envContains (o : Option (List StatEntry)) (d : String) : Prop :=
  ∃ e ∈ o.getD [], e.platformId = d

instance envContainsDec (o : Option (List StatEntry)) (d : String) :
    Decidable (envContains o d) := by
  unfold envContains
  infer_instance

/-- Whether an event is a parsed stats line for the destination id. -/
def isStatsLineFor (d : String) : Ev → Prop
  | .statsLine platformId _ => platformId = d
  | _ => False

/-- The key list of an association map. -/
def mapKeys {β : Type} (m : List (String × β)) : List String :=
  m.map Prod.fst

/-- Equality of `Except` results is decidable (used to evaluate the model
at concrete states). -/
instance exceptDecEq {ε α : Type} [DecidableEq ε] [DecidableEq α] :
    DecidableEq (Except ε α) := fun a b =>
  match a, b with
  | .error x, .error y =>
    if h : x = y then Decidable.isTrue (by rw [h])
    else Decidable.isFalse (by intro hc; cases hc; exact h rfl)
  | .error _, .ok _ => Decidable.isFalse (by intro hc; cases hc)
  | .ok _, .error _ => Decidable.isFalse (by intro hc; cases hc)
  | .ok x, .ok y =>
    if h : x = y then Decidable.isTrue (by rw [h])
    else Decidable.isFalse (by intro hc; cases hc; exact h rfl)

/-- A configured, adapter-backed destination with a live child. -/
def pcB : PlatformConfig :=
  { id := some "d1", name := "youtube", displayName := none, rtmpUrl := "rtmp://y",
    streamKey := "k2", enabled := true, metadata := [] }

/-- A supervisor state in which destination `d1` is streaming. -/
def smRunning : SMState :=
  { platforms := some [pcB], ffmpegProcesses := [("d1", ⟨false, false⟩)],
    platformStreamStates := [("d1", ⟨true, true⟩)], platformStatistics := [],
    statisticsChanged := ["d1"], adapters := ["youtube"], streamProviderAvailable := true,
    wsAvailable := true }

/-- The state `stopPlatformStream smRunning "d1"` produces. -/
def smStopped : SMState :=
  { platforms := some [pcB], ffmpegProcesses := [],
    platformStreamStates := [("d1", ⟨false, false⟩)], platformStatistics := [],
    statisticsChanged := [], adapters := ["youtube"], streamProviderAvailable := true,
    wsAvailable := true }

/-! ### Idempotent start and per-id session uniqueness (C2) -/

/-- An enabled destination with adapter and a session already running. -/
def pcA : PlatformConfig :=
  { id := some "p1", name := "twitch", displayName := none, rtmpUrl := "rtmp://x",
    streamKey := "k", enabled := true, metadata := [] }

/-- A supervisor state with an existing session for `p1`. -/
def smWithSession : SMState :=
  { platforms := some [pcA], ffmpegProcesses := [("p1", ⟨false, false⟩)],
    platformStreamStates := [("p1", ⟨true, true⟩)], platformStatistics := [],
    statisticsChanged := [], adapters := ["twitch"], streamProviderAvailable := true,
    wsAvailable := true }

/-- The same destination, disabled, with its session still in the
table. -/
def pcADisabled : PlatformConfig :=
  { id := some "p1", name := "twitch", displayName := none, rtmpUrl := "rtmp://x",
    streamKey := "k", enabled := false, metadata := [] }

/-- Model of `smWithSession` after the destination was disabled by a reconfigure
while its child kept running. -/
def smDisabledSession : SMState :=
  { platforms := some [pcADisabled], ffmpegProcesses := [("p1", ⟨false, false⟩)],
    platformStreamStates := [("p1", ⟨true, true⟩)], platformStatistics := [],
    statisticsChanged := [], adapters := ["twitch"], streamProviderAvailable := true,
    wsAvailable := true }

/-! ### Statistics envelopes contain only changed destinations (C7) -/

/-- A configured destination with id `a` for the C7 witness run. -/
def pc7 : PlatformConfig :=
  { id := some "a", name := "twitch", displayName := none, rtmpUrl := "rtmp://x",
    streamKey := "k", enabled := true, metadata := [] }

/-- A streaming state for destination `a` with nothing marked changed. -/
def sm7 : SMState :=
  { platforms := some [pc7], ffmpegProcesses := [("a", ⟨false, false⟩)],
    platformStreamStates := [("a", ⟨true, true⟩)], platformStatistics := [],
    statisticsChanged := [], adapters := ["twitch"], streamProviderAvailable := true,
    wsAvailable := true }

/-- A parsed statistics snapshot. -/
def st7 : ParsedStatistics :=
  { frame := some 10, fps := some 30, bitrate := some 2500 }

/-- A trace with two flushes that both emit an envelope for `a`, each
preceded by a stats line. -/
def evs7 : List Ev :=
  [Ev.statsLine "a" st7, Ev.flush, Ev.statsLine "a" st7, Ev.flush]

/-! ## RTMP ingest (src/stream/RTMPServer.ts) -/

/-- The `StreamStatus` enum of `IStreamProvider.ts`. -/
inductive StreamStatus where
  | idle
  | connecting
  | connected
  | streaming
  | error
  | disconnected
deriving DecidableEq, Repr

/-- The `StreamInfo` record (core fields). -/
structure StreamInfo where
  streamKey : String
  rtmpUrl : String
  status : StreamStatus
deriving DecidableEq, Repr

/-- The mutable ingest state of `RTMPServer`: configuration, publish
status, the recorded actual stream path, and the ordered log of
`statusChange` notifications delivered to subscribers. -/
structure RTMPState where
  configStreamKey : String
  configHost : String
  configPort : Int
  status : StreamStatus
  connected : Bool
  actualStreamPath : Option String
  streamInfo : Option StreamInfo
  notifications : List StreamStatus
deriving DecidableEq, Repr

/-- JS `path.split('/')`: split at every slash, keeping empty segments
(the empty path yields one empty segment). -/
def splitSlash : List Char → List (List Char)
  | [] => [[]]
  | c :: cs =>
    let r := splitSlash cs
    if c = '/' then [] :: r
    else
      match r with
      | [] => [[c]]
      | seg :: rest => (c :: seg) :: rest

/-- The stream-key extraction of the `prePublish` hook:
`StreamPath.split('/').filter(part => part.length > 0)` and its last
element (`undefined` — here `none` — when no nonempty segment exists). -/
def trailingSegment (path : String) : Option String :=
  let parts := ((splitSlash path.data).filter (fun seg => seg.length > 0)).map
    (fun seg => String.mk seg)
  parts.getLast?

/-- The `prePublish` hook: when a truthy stream key is configured and the
trailing path segment differs, the session is rejected before any state
change; otherwise the status moves to CONNECTING and the change is
emitted.  Returns the state and whether the publish was accepted. -/
def prePublish (s : RTMPState) (streamPath : String) : RTMPState × Bool :=
  let streamKey := trailingSegment streamPath
  if s.configStreamKey ≠ "" ∧ streamKey ≠ some s.configStreamKey then (s, false)
  else
    ({ s with status := StreamStatus.connecting,
              notifications := s.notifications ++ [StreamStatus.connecting] }, true)

/-- The `postPublish` hook: record the actual path, move to STREAMING,
rebuild `streamInfo` (rewriting a `0.0.0.0` bind address to localhost)
and notify every subscriber of STREAMING. -/
def postPublish (s : RTMPState) (streamPath : String) : RTMPState :=
  let rtmpHost := if s.configHost = "0.0.0.0" then "localhost" else s.configHost
  let rtmpUrl := "rtmp://" ++ rtmpHost ++ ":" ++ toString s.configPort ++ streamPath
  { s with status := StreamStatus.streaming, connected := true,
           actualStreamPath := some streamPath,
           streamInfo := some { streamKey := s.configStreamKey, rtmpUrl := rtmpUrl,
                                status := StreamStatus.streaming },
           notifications := s.notifications ++ [StreamStatus.streaming] }

/-- A full publish attempt against the ingest.  Modelled from the spec:
node-media-server fires `postPublish` only for sessions that were not
rejected at `prePublish` (`session.reject()` ends the session). -/
def publishAttempt (s : RTMPState) (streamPath : String) : RTMPState × Bool :=
  let r := prePublish s streamPath
  if r.2 then (postPublish r.1 streamPath, true) else (r.1, false)

/-- An idle ingest configured with stream key `obs`. -/
def rtmpIdle : RTMPState :=
  { configStreamKey := "obs", configHost := "localhost", configPort := 1935,
    status := StreamStatus.idle, connected := false, actualStreamPath := none,
    streamInfo := none, notifications := [] }

/-- An idle ingest whose configured stream key is the empty string. -/
def rtmpEmptyKey : RTMPState :=
  { configStreamKey := "", configHost := "localhost", configPort := 1935,
    status := StreamStatus.idle, connected := false, actualStreamPath := none,
    streamInfo := none, notifications := [] }

/-! ## Theorems -/

/-- C9: every lifecycle transition method, called in a state where its
transition is not permitted, returns a state-mismatch error and leaves the
stored state unchanged; a permitted transition (and `markError`, permitted
everywhere) moves to exactly its target state. -/
theorem lifecycle_guarded_transitions (m : Mark) (l : ModuleLifecycle) :
    applyMark m l =
      if markPermitted m l.state then ({ l with state := markTarget m }, none)
      else (l, some (markErrMsg m l)) := by
  cases m <;> cases l with
  | mk n st => cases st <;> rfl

/-- If a matcher fails wherever a second one does, the same holds for their
leftmost searches. -/
theorem searchPos_none_mono {β γ : Type} {f : List Char → Option β}
    {g : List Char → Option γ} (h : ∀ l, f l = none → g l = none) :
    ∀ l, searchPos f l = none → searchPos g l = none := by
  intro l
  induction l with
  | nil =>
    intro hf
    simp only [searchPos] at hf ⊢
    exact h [] hf
  | cons c cs ih =>
    intro hf
    simp only [searchPos] at hf ⊢
    cases hfc : f (c :: cs) with
    | some r => rw [hfc] at hf; exact absurd hf (by simp)
    | none =>
      rw [hfc] at hf
      rw [h (c :: cs) hfc]
      exact ih hf

/-- The fused statistics regex starts with the frame component, so it
cannot match where the frame matcher fails. -/
theorem statsFullMatchAt_none_of_frame {l : List Char} (h : compFrame l = none) :
    statsFullMatchAt l = none := by
  simp [statsFullMatchAt, h]

/-- C10: a line on which none of the frame, fps, bitrate and time patterns
match is not a statistics line — `parseStderrLine` returns `null` even if
the line carries a resolution (`WxH`) or codec (`Video: name`) field. -/
theorem parseStderrLine_null_without_numeric (line : List Char)
    (hfr : searchPos compFrame line = none)
    (hfp : searchPos compFps line = none)
    (hbr : searchPos compBitrate line = none)
    (htm : searchPos compTime line = none) :
    parseStderrLine line = none := by
  have hfull : searchPos statsFullMatchAt line = none :=
    searchPos_none_mono (fun _ hl => statsFullMatchAt_none_of_frame hl) line hfr
  simp [parseStderrLine, hfull, hfr, hfp, hbr, htm]

/-- Witness for C10 at a concrete line: the codec and resolution patterns
match it, the four numeric patterns do not, and the parser returns
`null`. -/
theorem parseStderrLine_null_without_numeric_witness :
    (searchPos compCodec sampleInfoLine).isSome = true ∧
    (searchPos compResolution sampleInfoLine).isSome = true ∧
    parseStderrLine sampleInfoLine = none :=
  ⟨by decide, by decide,
    parseStderrLine_null_without_numeric sampleInfoLine (by decide) (by decide)
      (by decide) (by decide)⟩

/-- A URL starting with `rtmp://` cannot also start with `rtmps://` (the
two literals differ at their fifth character). -/
theorem not_rtmps_of_rtmp {url : String} (h : jsStartsWith url "rtmp://" = true) :
    jsStartsWith url "rtmps://" = false := by
  by_contra hc
  rw [Bool.not_eq_false] at hc
  have h1 : String.data "rtmp://" <+: url.data := by simpa [jsStartsWith] using h
  have h2 : String.data "rtmps://" <+: url.data := by simpa [jsStartsWith] using hc
  rcases List.prefix_or_prefix_of_prefix h1 h2 with h3 | h3
  · exact absurd h3 (by decide)
  · exact absurd h3 (by decide)

/-- A URL ending with `/app/` cannot also end with `/app` (the shorter
suffix would have to be a suffix of the longer one). -/
theorem not_ends_app_of_ends_app_slash {url : String}
    (h : jsEndsWith url "/app/" = true) : jsEndsWith url "/app" = false := by
  by_contra hc
  rw [Bool.not_eq_false] at hc
  have h1 : String.data "/app/" <:+ url.data := by simpa [jsEndsWith] using h
  have h2 : String.data "/app" <:+ url.data := by simpa [jsEndsWith] using hc
  have h3 : String.data "/app" <:+ String.data "/app/" :=
    List.suffix_of_suffix_length_le h2 h1 (by decide)
  exact absurd h3 (by decide)

/-- C3: the child transcoder's output URL, case by case over the claim's
base-URL shapes: `{url}/{streamKey}` for `rtmp://` bases; for `rtmps://`
bases `{url}/{streamKey}` when the url ends with `/app`, `{url}{streamKey}`
when it ends with `/app/`, and otherwise the url with a trailing `/`
stripped followed by `/app/{streamKey}`. -/
theorem composeOutputUrl_cases (url key : String) :
    (jsStartsWith url "rtmp://" = true →
      composeOutputUrl url key = url ++ "/" ++ key) ∧
    (jsStartsWith url "rtmps://" = true → jsEndsWith url "/app" = true →
      composeOutputUrl url key = url ++ "/" ++ key) ∧
    (jsStartsWith url "rtmps://" = true → jsEndsWith url "/app/" = true →
      composeOutputUrl url key = url ++ key) ∧
    (jsStartsWith url "rtmps://" = true → jsEndsWith url "/app" = false →
      jsEndsWith url "/app/" = false →
      composeOutputUrl url key = stripTrailingSlash url ++ "/app/" ++ key) := by
  refine ⟨fun h1 => ?_, fun h1 h2 => ?_, fun h1 h2 => ?_, fun h1 h2 h3 => ?_⟩
  · rw [composeOutputUrl, not_rtmps_of_rtmp h1]; rfl
  · rw [composeOutputUrl, h1, h2]; rfl
  · rw [composeOutputUrl, h1, not_ends_app_of_ends_app_slash h2, h2]; rfl
  · rw [composeOutputUrl, h1, h2, h3]
    simp [String.ext_iff]

/-- Witness for C3 at the boundary inputs of the specification: a Twitch
style `rtmp://` base, a bare RTMPS host, and RTMPS hosts already carrying
the application path. -/
theorem composeOutputUrl_cases_witness :
    composeOutputUrl "rtmp://live.twitch.tv/app" "X" = "rtmp://live.twitch.tv/app/X" ∧
    composeOutputUrl "rtmps://fa723.global-contribute.live-video.net" "sk_abc" =
      "rtmps://fa723.global-contribute.live-video.net/app/sk_abc" ∧
    composeOutputUrl "rtmps://ingest.example.net/app" "k1" =
      "rtmps://ingest.example.net/app/k1" ∧
    composeOutputUrl "rtmps://ingest.example.net/app/" "k2" =
      "rtmps://ingest.example.net/app/k2" ∧
    composeOutputUrl "rtmps://ingest.example.net/" "k3" =
      "rtmps://ingest.example.net/app/k3" := by
  refine ⟨?_, ?_, ?_, ?_, ?_⟩
  · have h := (composeOutputUrl_cases "rtmp://live.twitch.tv/app" "X").1 (by decide)
    rw [h]; rfl
  · have h := (composeOutputUrl_cases "rtmps://fa723.global-contribute.live-video.net"
      "sk_abc").2.2.2 (by decide) (by decide) (by decide)
    rw [h]; rfl
  · have h := (composeOutputUrl_cases "rtmps://ingest.example.net/app" "k1").2.1
      (by decide) (by decide)
    rw [h]; rfl
  · have h := (composeOutputUrl_cases "rtmps://ingest.example.net/app/" "k2").2.2.1
      (by decide) (by decide)
    rw [h]; rfl
  · have h := (composeOutputUrl_cases "rtmps://ingest.example.net/" "k3").2.2.2
      (by decide) (by decide) (by decide)
    rw [h]; rfl

/-- With no recognized environment variables set, the override block is
the identity. -/
theorem applyEnv_empty (c : Config) : applyEnv EnvVars.empty c = c := rfl

/-- Loading the serialized platform list restores it when every platform
carries a truthy (present, nonempty) id. -/
theorem loadPlatforms_map_toYaml (now : Int) :
    ∀ (i : Nat) (ps : List PlatformConfig),
      (∀ p ∈ ps, p.id ≠ none ∧ p.id ≠ some "") →
      loadPlatforms now i (List.map platformToYaml ps) = ps := by
  intro i ps
  induction ps generalizing i with
  | nil => intro _; rfl
  | cons p ps ih =>
    intro h
    have hp := h p (by simp)
    have hps : ∀ q ∈ ps, q.id ≠ none ∧ q.id ≠ some "" := fun q hq => h q (by simp [hq])
    simp only [List.map, loadPlatforms]
    rw [ih (i + 1) hps]
    cases hid : p.id with
    | none => exact absurd hid hp.1
    | some s =>
      have hs : s ≠ "" := by
        intro he
        exact hp.2 (he ▸ hid)
      cases p
      simp only [PlatformConfig.mk.injEq] at hid
      simp [loadPlatform, platformToYaml, hid, hs]

/-- C6 (amended): the save/load round trip restores the configuration
whenever every platform has a present nonempty id, the ingest app name
and stream key are nonempty, the version string is nonempty, the OBS
password key is present (it may be null) and no environment override is
set; and stream keys are written to the file unmasked. -/
theorem saveConfig_loadConfig_roundTrip (cfg : Config) (now : Int)
    (hid : ∀ p ∈ cfg.streamManager.platforms, p.id ≠ none ∧ p.id ≠ some "")
    (happ : cfg.streamManager.rtmpServer.appName ≠ "")
    (hkey : cfg.streamManager.rtmpServer.streamKey ≠ "")
    (hver : cfg.version ≠ "")
    (hpw : cfg.streamManager.obs.password ≠ none) :
    loadConfig (some (configToYamlDoc cfg)) EnvVars.empty now = cfg ∧
    (configToYamlDoc cfg).stream_manager.platforms.map YamlPlatform.stream_key =
      cfg.streamManager.platforms.map PlatformConfig.streamKey ∧
    (configToYamlDoc cfg).stream_manager.rtmp_server.stream_key =
      cfg.streamManager.rtmpServer.streamKey := by
  refine ⟨?_, ?_, rfl⟩
  · obtain ⟨⟨⟨oh, op, opw⟩, ⟨rh, rp, ran, rk, ren⟩, ar, rd, mr, ps⟩, ⟨uh, up, ud⟩, v⟩ := cfg
    cases opw with
    | none => exact absurd rfl hpw
    | some pv =>
      simp only [loadConfig, configToYamlDoc, applyEnv_empty] at *
      have hps := loadPlatforms_map_toYaml now 0 ps hid
      simp [hps, happ, hkey, hver]
  · simp [configToYamlDoc, platformToYaml, Function.comp]

/-- Counterexample for C6 as stated: for a schema-valid configuration
whose platform omits the optional id, load-after-save generates a fresh
id (`platform_${Date.now()}_0`), so the round trip does not return the
saved value. -/
theorem loadConfig_roundTrip_fails_on_generated_id :
    (loadConfig (some (configToYamlDoc cfgNoId)) EnvVars.empty 0).streamManager.platforms.map
      PlatformConfig.id = [some "platform_0_0"] ∧
    cfgNoId.streamManager.platforms.map PlatformConfig.id = [none] ∧
    loadConfig (some (configToYamlDoc cfgNoId)) EnvVars.empty 0 ≠ cfgNoId := by
  exact ⟨by decide, by decide, by decide⟩

/-- Witness for the amended C6 at a concrete configuration. -/
theorem saveConfig_loadConfig_roundTrip_witness :
    loadConfig (some (configToYamlDoc cfgRoundTrip)) EnvVars.empty 42 = cfgRoundTrip ∧
    (configToYamlDoc cfgRoundTrip).stream_manager.platforms.map YamlPlatform.stream_key =
      cfgRoundTrip.streamManager.platforms.map PlatformConfig.streamKey ∧
    (configToYamlDoc cfgRoundTrip).stream_manager.rtmp_server.stream_key =
      cfgRoundTrip.streamManager.rtmpServer.streamKey :=
  saveConfig_loadConfig_roundTrip cfgRoundTrip 42 (by decide) (by decide) (by decide)
    (by decide) (by decide)

/-- C5 (amended): `saveConfig` creates the parent directory, performs one
direct write of the serialized document to the target path — no temporary
file, no rename — and invalidates the in-memory cache. -/
theorem saveConfig_direct_write_invalidates (c : Config) (p : String)
    (cache : Option ConfigCache) :
    saveConfig c p cache = ([FsOp.mkdirParent p, FsOp.writeFile p (configToYamlDoc c)], none) ∧
    List.filter FsOp.isRename (saveConfig c p cache).1 = [] :=
  ⟨rfl, rfl⟩

/-- Counterexample for C5 as stated: at a concrete configuration and path
the trace of `saveConfig` contains no rename and its only write goes
directly to the target file, so there is no write-temp-then-rename. -/
theorem saveConfig_no_temp_rename :
    (saveConfig defaultConfig "config.yaml" none).1 =
      [FsOp.mkdirParent "config.yaml",
       FsOp.writeFile "config.yaml" (configToYamlDoc defaultConfig)] ∧
    List.filter FsOp.isRename (saveConfig defaultConfig "config.yaml" none).1 = [] ∧
    List.filter FsOp.isWrite (saveConfig defaultConfig "config.yaml" none).1 =
      [FsOp.writeFile "config.yaml" (configToYamlDoc defaultConfig)] :=
  ⟨rfl, rfl, rfl⟩

/-- Members of the `setupRegistry` platform list have truthy url and
stream key. -/
theorem mem_setupRegistryPlatforms {ps : List PlatformConfig} {p : PlatformConfig}
    (hp : p ∈ setupRegistryPlatforms ps) :
    p.rtmpUrl ≠ "" ∧ p.streamKey ≠ "" ∧ jsTrim p.streamKey ≠ "" := by
  rw [setupRegistryPlatforms, List.mem_filterMap] at hp
  obtain ⟨a, _, ha⟩ := hp
  by_cases hc : a.rtmpUrl ≠ "" ∧ a.streamKey ≠ "" ∧ jsTrim a.streamKey ≠ ""
  · rw [if_pos hc] at ha
    injection ha with h
    subst h
    exact hc
  · rw [if_neg hc] at ha
    cases ha

/-- C8 (amended): the platform list the bootstrap hands to the stream
manager — built in `setupRegistry` from the loaded configuration —
contains no destination with empty url or empty (or whitespace-only)
stream key; the filtering happens there, not inside `loadConfig`. -/
theorem setupRegistry_filters_empty_destinations (doc : Option YamlDoc) (env : EnvVars)
    (now : Int) (p : PlatformConfig)
    (hp : p ∈ setupRegistryPlatforms (loadConfig doc env now).streamManager.platforms) :
    p.rtmpUrl ≠ "" ∧ p.streamKey ≠ "" ∧ jsTrim p.streamKey ≠ "" :=
  mem_setupRegistryPlatforms hp

/-- Counterexample for C8 as stated: `loadConfig` itself returns the
empty-url destination unfiltered (only the downstream `setupRegistry`
filter drops it). -/
theorem loadConfig_keeps_empty_url :
    (loadConfig (some docMixed) EnvVars.empty 0).streamManager.platforms.map
      PlatformConfig.rtmpUrl = ["", "rtmp://a.rtmp.youtube.com/live2"] ∧
    (setupRegistryPlatforms
        (loadConfig (some docMixed) EnvVars.empty 0).streamManager.platforms).map
      PlatformConfig.rtmpUrl = ["rtmp://a.rtmp.youtube.com/live2"] := by
  exact ⟨by decide, by decide⟩

/-- Witness for the amended C8 at a concrete document and destination. -/
theorem setupRegistry_filters_empty_destinations_witness :
    platformD2.rtmpUrl ≠ "" ∧ platformD2.streamKey ≠ "" ∧ jsTrim platformD2.streamKey ≠ "" :=
  setupRegistry_filters_empty_destinations (some docMixed) EnvVars.empty 0 platformD2
    (by decide)

/-! ### Association-map lemmas -/

theorem find?_replace_self {β : Type} (k : String) (v : β) :
    ∀ m : List (String × β),
      List.find? (fun e => e.1 == k) (m.map (fun e => if e.1 == k then (k, v) else e)) =
        (List.find? (fun e => e.1 == k) m).map (fun _ => (k, v)) := by
  intro m
  induction m with
  | nil => rfl
  | cons e es ih =>
    by_cases he : e.1 = k
    · have hb : (e.1 == k) = true := by simpa using he
      rw [List.map_cons, if_pos hb,
        List.find?_cons_of_pos (p := fun (e : String × β) => e.1 == k) _ (by simp),
        List.find?_cons_of_pos (p := fun (e : String × β) => e.1 == k) _ hb]
      rfl
    · have hb : (e.1 == k) = false := by simpa using he
      rw [List.map_cons, if_neg (by simp [hb]),
        List.find?_cons_of_neg (p := fun (e : String × β) => e.1 == k) _ (by simp [hb]),
        List.find?_cons_of_neg (p := fun (e : String × β) => e.1 == k) _ (by simp [hb])]
      exact ih

theorem find?_replace_ne {β : Type} {k k' : String} (hne : k' ≠ k) (v : β) :
    ∀ m : List (String × β),
      List.find? (fun e => e.1 == k') (m.map (fun e => if e.1 == k then (k, v) else e)) =
        List.find? (fun e => e.1 == k') m := by
  intro m
  induction m with
  | nil => rfl
  | cons e es ih =>
    by_cases he : e.1 = k
    · have hb : (e.1 == k) = true := by simpa using he
      have hb1 : ((k : String) == k') = false := by
        simp only [beq_eq_false_iff_ne, ne_eq]
        exact fun h => hne h.symm
      have hb2 : (e.1 == k') = false := by
        rw [he]
        exact hb1
      rw [List.map_cons, if_pos hb,
        List.find?_cons_of_neg (p := fun (e : String × β) => e.1 == k') _ (by simp [hb1]),
        List.find?_cons_of_neg (p := fun (e : String × β) => e.1 == k') _ (by simp [hb2])]
      exact ih
    · have hb : (e.1 == k) = false := by simpa using he
      by_cases he2 : e.1 = k'
      · have hb2 : (e.1 == k') = true := by simpa using he2
        rw [List.map_cons, if_neg (by simp [hb]),
          List.find?_cons_of_pos (p := fun (e : String × β) => e.1 == k') _ hb2,
          List.find?_cons_of_pos (p := fun (e : String × β) => e.1 == k') _ hb2]
      · have hb2 : (e.1 == k') = false := by simpa using he2
        rw [List.map_cons, if_neg (by simp [hb]),
          List.find?_cons_of_neg (p := fun (e : String × β) => e.1 == k') _ (by simp [hb2]),
          List.find?_cons_of_neg (p := fun (e : String × β) => e.1 == k') _ (by simp [hb2])]
        exact ih

theorem mapGet_mapSet_self {β : Type} (m : List (String × β)) (k : String) (v : β) :
    mapGet (mapSet m k v) k = some v := by
  unfold mapGet mapSet
  cases hf : List.find? (fun e => e.1 == k) m with
  | none =>
    simp only [Option.isSome_none, Bool.false_eq_true, if_false]
    rw [List.find?_append, hf]
    simp
  | some e =>
    simp only [Option.isSome_some, if_true]
    rw [find?_replace_self, hf]
    rfl

theorem mapGet_mapSet_ne {β : Type} {m : List (String × β)} {k k' : String} (hne : k' ≠ k)
    (v : β) : mapGet (mapSet m k v) k' = mapGet m k' := by
  unfold mapGet mapSet
  cases hf : List.find? (fun e => e.1 == k) m with
  | none =>
    simp only [Option.isSome_none, Bool.false_eq_true, if_false]
    rw [List.find?_append]
    have hb : ((k : String) == k') = false := by
      simp only [beq_eq_false_iff_ne, ne_eq]
      exact fun h => hne h.symm
    cases h : List.find? (fun e => e.1 == k') m with
    | none => simp [hb]
    | some e => simp
  | some e =>
    simp only [Option.isSome_some, if_true]
    rw [find?_replace_ne hne]

theorem mapGet_mapSet_cases {β : Type} {m : List (String × β)} {k k' : String} {v u : β}
    (h : mapGet (mapSet m k v) k' = some u) : u = v ∨ mapGet m k' = some u := by
  by_cases hk : k' = k
  · subst hk
    rw [mapGet_mapSet_self] at h
    exact Or.inl (Option.some.inj h).symm
  · rw [mapGet_mapSet_ne hk] at h
    exact Or.inr h

theorem mapGet_mapDel_self {β : Type} (m : List (String × β)) (k : String) :
    mapGet (mapDel m k) k = none := by
  unfold mapGet mapDel
  have hnone : List.find? (fun e => e.1 == k) (m.filter fun e => e.1 != k) = none := by
    rw [List.find?_eq_none]
    intro x hx
    rw [List.mem_filter] at hx
    simpa using hx.2
  rw [hnone]
  rfl

theorem mapKeys_mapSet_nodup {β : Type} {m : List (String × β)} {k : String} {v : β}
    (h : (mapKeys m).Nodup) : (mapKeys (mapSet m k v)).Nodup := by
  unfold mapSet
  cases hf : List.find? (fun e => e.1 == k) m with
  | some e =>
    simp only [Option.isSome_some, if_true]
    have heq : mapKeys (m.map (fun e => if e.1 == k then (k, v) else e)) = mapKeys m := by
      unfold mapKeys
      rw [List.map_map]
      apply List.map_congr_left
      intro e _
      by_cases he : e.1 = k
      · have hb : (e.1 == k) = true := by simpa using he
        simp [hb, he]
      · have hb : (e.1 == k) = false := by simpa using he
        simp [hb, he]
    rw [heq]
    exact h
  | none =>
    simp only [Option.isSome_none, Bool.false_eq_true, if_false]
    have hk : k ∉ mapKeys m := by
      intro hmem
      rw [mapKeys, List.mem_map] at hmem
      obtain ⟨e, he, hek⟩ := hmem
      have h2 := List.find?_eq_none.mp hf e he
      simp [hek] at h2
    unfold mapKeys
    rw [List.map_append]
    simp only [List.map_cons, List.map_nil]
    rw [List.nodup_append]
    refine ⟨h, List.nodup_singleton k, ?_⟩
    intro a ha hb
    simp only [List.mem_singleton] at hb
    exact hk (hb ▸ ha)

/-- Values stored in the rebuilt config map come from the platform
list. -/
theorem rebuildStep_get_cases {m : List (String × PlatformConfig)} {pc u : PlatformConfig}
    {k : String} (h : mapGet (rebuildStep m pc) k = some u) :
    u = pc ∨ mapGet m k = some u := by
  unfold rebuildStep at h
  cases hid : pc.id with
  | none =>
    rw [hid] at h
    dsimp only at h
    exact mapGet_mapSet_cases h
  | some s =>
    rw [hid] at h
    dsimp only at h
    by_cases hc : s ≠ "" ∧ s ≠ pc.name
    · rw [if_pos hc] at h
      rcases mapGet_mapSet_cases h with h1 | h1
      · exact Or.inl h1
      · exact mapGet_mapSet_cases h1
    · rw [if_neg hc] at h
      exact mapGet_mapSet_cases h

theorem rebuildMap_get_mem_aux :
    ∀ (ps : List PlatformConfig) (acc : List (String × PlatformConfig)) (k : String)
      (pc : PlatformConfig),
      mapGet (List.foldl rebuildStep acc ps) k = some pc → pc ∈ ps ∨ mapGet acc k = some pc := by
  intro ps
  induction ps with
  | nil => intro acc k pc h; exact Or.inr h
  | cons p rest ih =>
    intro acc k pc h
    rcases ih (rebuildStep acc p) k pc h with h1 | h1
    · exact Or.inl (List.mem_cons_of_mem _ h1)
    · rcases rebuildStep_get_cases h1 with h2 | h2
      · exact Or.inl (h2 ▸ List.mem_cons_self p rest)
      · exact Or.inr h2

/-- A successful `getPlatformConfig` lookup returns one of the configured
platforms. -/
theorem getPlatformConfig_mem {s : SMState} {ps : List PlatformConfig} {k : String}
    {pc : PlatformConfig} (hps : s.platforms = some ps)
    (h : getPlatformConfig s k = some pc) : pc ∈ ps := by
  rw [getPlatformConfig, hps] at h
  rcases rebuildMap_get_mem_aux ps [] k pc h with h1 | h1
  · exact h1
  · cases h1

/-! ### Status snapshot after stop (C1) -/

theorem foldStatus_get_of_not_mem (s : SMState) (k : String) :
    ∀ (ps : List PlatformConfig) (acc : List (String × PlatformStatusEntry)),
      (∀ pc ∈ ps, platformIdentifier pc ≠ k) →
      mapGet (ps.foldl (fun acc pc => mapSet acc (platformIdentifier pc) (getStatusEntry s pc)) acc) k
        = mapGet acc k := by
  intro ps
  induction ps with
  | nil => intro acc _; rfl
  | cons p rest ih =>
    intro acc h
    have hp : platformIdentifier p ≠ k := h p (List.mem_cons_self p rest)
    have hrest : ∀ pc ∈ rest, platformIdentifier pc ≠ k :=
      fun pc hpc => h pc (List.mem_cons_of_mem _ hpc)
    simp only [List.foldl_cons]
    rw [ih _ hrest, mapGet_mapSet_ne (fun he => hp he.symm)]

theorem foldStatus_get_mem (s : SMState) (k : String) :
    ∀ (ps : List PlatformConfig) (acc : List (String × PlatformStatusEntry)),
      (∃ pc ∈ ps, platformIdentifier pc = k) →
      ∃ pc, pc ∈ ps ∧ platformIdentifier pc = k ∧
        mapGet (ps.foldl (fun acc pc => mapSet acc (platformIdentifier pc) (getStatusEntry s pc)) acc) k
          = some (getStatusEntry s pc) := by
  intro ps
  induction ps with
  | nil => intro acc h; obtain ⟨pc, hmem, _⟩ := h; cases hmem
  | cons p rest ih =>
    intro acc h
    by_cases hrest : ∃ pc ∈ rest, platformIdentifier pc = k
    · obtain ⟨pc, hmem, hk, hget⟩ := ih (mapSet acc (platformIdentifier p) (getStatusEntry s p)) hrest
      exact ⟨pc, List.mem_cons_of_mem _ hmem, hk, hget⟩
    · have hp : platformIdentifier p = k := by
        obtain ⟨pc, hmem, hk⟩ := h
        rcases List.mem_cons.mp hmem with rfl | hmem2
        · exact hk
        · exact absurd ⟨pc, hmem2, hk⟩ hrest
      refine ⟨p, List.mem_cons_self p rest, hp, ?_⟩
      push_neg at hrest
      simp only [List.foldl_cons]
      rw [foldStatus_get_of_not_mem s k rest _ hrest, hp, mapGet_mapSet_self]

/-- C1: for every configured destination, once `stopPlatformStream` has
returned for it, the `getStatus` snapshot reports that destination with
status `idle`, `connected = false` and `streaming = false` — regardless
of the state of any FFmpeg child (the stored stream state was forced to
disconnected and wins over process liveness). -/
theorem stop_then_snapshot_idle (s : SMState) (idOrName : String) (s' : SMState)
    (platformIdent : String)
    (h : stopPlatformStream s idOrName = Except.ok (s', platformIdent)) :
    ∃ entry, mapGet (getStatusPlatforms s') platformIdent = some entry ∧
      entry.status = "idle" ∧ entry.connected = false ∧ entry.streaming = false := by
  cases hps : s.platforms with
  | none => simp [stopPlatformStream, hps] at h
  | some ps =>
    cases hpc : getPlatformConfig s idOrName with
    | none => simp [stopPlatformStream, hps, hpc] at h
    | some pc =>
      by_cases had : pc.name ∈ s.adapters
      · simp only [stopPlatformStream, hps, hpc, had, if_true, Except.ok.injEq,
          Prod.mk.injEq] at h
        obtain ⟨h1, h2⟩ := h
        subst h2
        have hmem : pc ∈ ps := getPlatformConfig_mem hps hpc
        have hps2 : s'.platforms = some ps := by rw [← h1]
        obtain ⟨pc2, hmem2, hk2, hget⟩ :=
          foldStatus_get_mem s' (platformIdentifier pc) ps [] ⟨pc, hmem, rfl⟩
        refine ⟨getStatusEntry s' pc2, ?_, ?_⟩
        · rw [getStatusPlatforms, hps2]
          exact hget
        · have hstate : mapGet s'.platformStreamStates (platformIdentifier pc2) =
              some ⟨false, false⟩ := by
            rw [hk2, ← h1]
            exact mapGet_mapSet_self _ _ _
          simp [getStatusEntry, hstate]
      · simp [stopPlatformStream, hps, hpc, had] at h

/-- Witness for C1 at a concrete run of `stopPlatformStream`. -/
theorem stop_then_snapshot_idle_witness :
    ∃ entry, mapGet (getStatusPlatforms smStopped) "d1" = some entry ∧
      entry.status = "idle" ∧ entry.connected = false ∧ entry.streaming = false :=
  stop_then_snapshot_idle smRunning "d1" smStopped "d1" (by decide)

/-- C2 (amended): the session table keyed by destination id keeps at most
one session per id across `startPlatformStream` (key uniqueness is
preserved), and for an *enabled* destination whose session already exists
the call returns success without spawning a second child or modifying any
state — the enabled check precedes the idempotence check, so a disabled
destination errors even when its session exists. -/
theorem start_idempotent_when_session_exists (s : SMState) (idOrName : String)
    (env : StartEnv) :
    (∀ pc, getPlatformConfig s idOrName = some pc → pc.enabled = true →
      s.streamProviderAvailable = true →
      (mapGet s.ffmpegProcesses (platformIdentifier pc)).isSome = true →
      startPlatformStream s idOrName env = (s, Except.ok true)) ∧
    ((mapKeys s.ffmpegProcesses).Nodup →
      (mapKeys (startPlatformStream s idOrName env).1.ffmpegProcesses).Nodup) := by
  constructor
  · intro pc hpc hen hpr hproc
    cases hps : s.platforms with
    | none =>
      rw [getPlatformConfig, hps] at hpc
      exact Option.noConfusion hpc
    | some ps =>
      simp [startPlatformStream, hps, hpc, hpr, hen, hproc]
  · intro hnd
    unfold startPlatformStream
    by_cases h1 : s.streamProviderAvailable = false
    · rw [if_pos h1]; exact hnd
    · rw [if_neg h1]
      cases hps : s.platforms with
      | none => exact hnd
      | some ps =>
        dsimp only
        cases hpc : getPlatformConfig s idOrName with
        | none => exact hnd
        | some pc =>
          try dsimp only
          by_cases hen : pc.enabled = false
          · rw [if_pos hen]; exact hnd
          · rw [if_neg hen]
            try dsimp only
            by_cases hpr : (mapGet s.ffmpegProcesses (platformIdentifier pc)).isSome = true
            · simp only [hpr, if_true]
              exact hnd
            · simp only [hpr, if_false]
              by_cases had : pc.name ∈ s.adapters
              · rw [if_pos had]
                by_cases hco : env.configureOk = false
                · rw [if_pos hco]; exact hnd
                · rw [if_neg hco]
                  by_cases hff : env.ffmpegAvailable = false
                  · rw [if_pos hff]; exact hnd
                  · rw [if_neg hff]
                    exact mapKeys_mapSet_nodup hnd
              · rw [if_neg had]; exact hnd

/-- Witness for C2 at a concrete state: double-start returns success and
leaves the state untouched, and the session keys stay duplicate-free. -/
theorem start_idempotent_when_session_exists_witness :
    startPlatformStream smWithSession "p1" ⟨true, true⟩ = (smWithSession, Except.ok true) ∧
    (mapKeys (startPlatformStream smWithSession "p1" ⟨true, true⟩).1.ffmpegProcesses).Nodup :=
  ⟨(start_idempotent_when_session_exists smWithSession "p1" ⟨true, true⟩).1 pcA (by decide)
      (by decide) (by decide) (by decide),
    (start_idempotent_when_session_exists smWithSession "p1" ⟨true, true⟩).2 (by decide)⟩

/-- Counterexample for C2 as stated: a session for `p1` exists, yet
`startPlatformStream` returns the disabled error instead of success —
the enabled validation runs before the session-exists check. -/
theorem start_errors_for_disabled_with_session :
    (mapGet smDisabledSession.ffmpegProcesses "p1").isSome = true ∧
    startPlatformStream smDisabledSession "p1" ⟨true, true⟩ =
      (smDisabledSession, Except.error "Platform p1 is disabled") := by
  exact ⟨by decide, by decide⟩

/-- The successful branch of `stopPlatformStream` in record form. -/
theorem stopPlatformStream_ok {s : SMState} {n : String} {s1 : SMState} {pid : String}
    (h : stopPlatformStream s n = Except.ok (s1, pid)) :
    s1 = { s with
      ffmpegProcesses := mapDel s.ffmpegProcesses pid,
      platformStreamStates := mapSet s.platformStreamStates pid ⟨false, false⟩,
      platformStatistics := mapDel s.platformStatistics pid,
      statisticsChanged := delSet s.statisticsChanged pid } := by
  cases hps : s.platforms with
  | none => simp [stopPlatformStream, hps] at h
  | some ps =>
    cases hpc : getPlatformConfig s n with
    | none => simp [stopPlatformStream, hps, hpc] at h
    | some pc =>
      by_cases had : pc.name ∈ s.adapters
      · simp only [stopPlatformStream, hps, hpc, had, if_true, Except.ok.injEq,
          Prod.mk.injEq] at h
        obtain ⟨h1, h2⟩ := h
        subst h2
        rw [← h1]
      · simp [stopPlatformStream, hps, hpc, had] at h

/-- Every collected statistics entry belongs to a changed platform id. -/
theorem mem_statisticsEntries {s : SMState} {x : StatEntry}
    (h : x ∈ statisticsEntries s) : x.platformId ∈ s.statisticsChanged := by
  unfold statisticsEntries at h
  cases hps : s.platforms with
  | none => rw [hps] at h; cases h
  | some ps =>
    rw [hps] at h
    rw [List.mem_filterMap] at h
    obtain ⟨pid, hpid, hx⟩ := h
    cases hg : mapGet (rebuildPlatformConfigMap ps) pid with
    | none => rw [hg] at hx; cases hx
    | some pc =>
      rw [hg] at hx
      dsimp only at hx
      injection hx with hx
      subst hx
      exact hpid

/-- When `broadcastStatisticsUpdate` emits an envelope, the changed set is
cleared and every emitted entry was in the pre-broadcast changed set. -/
theorem broadcast_emit_spec {s : SMState} {s1 : SMState} {E : List StatEntry}
    (h : broadcastStatisticsUpdate s = (s1, some E)) :
    s1.statisticsChanged = [] ∧ ∀ x ∈ E, x.platformId ∈ s.statisticsChanged := by
  unfold broadcastStatisticsUpdate at h
  by_cases hws : s.wsAvailable = false
  · rw [if_pos hws] at h
    simp at h
  · rw [if_neg hws] at h
    by_cases hch : s.statisticsChanged = []
    · rw [if_pos hch] at h
      simp at h
    · rw [if_neg hch] at h
      dsimp only at h
      by_cases hent : statisticsEntries s = []
      · rw [if_pos hent] at h
        simp at h
      · rw [if_neg hent] at h
        obtain ⟨h3, h4⟩ := (Prod.mk.injEq _ _ _ _).mp h
        constructor
        · rw [← h3]
        · intro x hx
          have h5 : x ∈ statisticsEntries s := by
            rw [Option.some.inj h4]
            exact hx
          exact mem_statisticsEntries h5

/-- Model of `broadcastStatisticsUpdate` never adds to the changed set. -/
theorem broadcast_changed_sub {s : SMState} {d : String}
    (h : d ∈ (broadcastStatisticsUpdate s).1.statisticsChanged) :
    d ∈ s.statisticsChanged := by
  unfold broadcastStatisticsUpdate at h
  by_cases hws : s.wsAvailable = false
  · rw [if_pos hws] at h; exact h
  · rw [if_neg hws] at h
    by_cases hch : s.statisticsChanged = []
    · rw [if_pos hch] at h; exact h
    · rw [if_neg hch] at h
      dsimp only at h
      by_cases hent : statisticsEntries s = []
      · rw [if_pos hent] at h
        simp at h
      · rw [if_neg hent] at h
        simp at h

theorem mem_addSet {s : List String} {k d : String} (h : d ∈ addSet s k) : d ∈ s ∨ d = k := by
  unfold addSet at h
  by_cases hk : k ∈ s
  · rw [if_pos hk] at h; exact Or.inl h
  · rw [if_neg hk] at h
    rcases List.mem_append.mp h with h1 | h1
    · exact Or.inl h1
    · exact Or.inr (List.mem_singleton.mp h1)

theorem mem_delSet {s : List String} {k d : String} (h : d ∈ delSet s k) : d ∈ s :=
  (List.mem_filter.mp h).1

/-- A destination id in the changed set after a step was either already
there or was marked by a parsed stats line of that very step. -/
theorem stepEv_changed_cases {s : SMState} {e : Ev} {d : String}
    (h : d ∈ (stepEv s e).1.statisticsChanged) :
    d ∈ s.statisticsChanged ∨ isStatsLineFor d e := by
  cases e with
  | statsLine pid stt =>
    simp only [stepEv] at h
    rcases mem_addSet h with h1 | h1
    · exact Or.inl h1
    · exact Or.inr h1.symm
  | flush =>
    simp only [stepEv] at h
    exact Or.inl (broadcast_changed_sub h)
  | stopPlat n =>
    simp only [stepEv] at h
    cases hr : stopPlatformStream s n with
    | ok p =>
      obtain ⟨s1, pid⟩ := p
      rw [hr] at h
      dsimp only at h
      rw [stopPlatformStream_ok hr] at h
      exact Or.inl (mem_delSet h)
    | error msg =>
      rw [hr] at h
      exact Or.inl h
  | procClosed pid =>
    simp only [stepEv] at h
    exact Or.inl (mem_delSet h)

theorem runState_append (s : SMState) (a b : List Ev) :
    runState s (a ++ b) = runState (runState s a) b := by
  induction a generalizing s with
  | nil => rfl
  | cons e es ih => exact ih (stepEv s e).1

theorem runLog_getD (s : SMState) (evs : List Ev) (j : Nat) (hj : j < evs.length) :
    (runLog s evs).getD j none =
      (stepEv (runState s (evs.take j)) (evs.getD j Ev.flush)).2 := by
  induction evs generalizing s j with
  | nil => cases hj
  | cons e es ih =>
    cases j with
    | zero => rfl
    | succ j2 => exact ih (stepEv s e).1 j2 (Nat.lt_of_succ_lt_succ hj)

theorem runState_take_succ (s : SMState) (evs : List Ev) (j : Nat) (hj : j < evs.length) :
    runState s (evs.take (j + 1)) =
      (stepEv (runState s (evs.take j)) (evs.getD j Ev.flush)).1 := by
  induction evs generalizing s j with
  | nil => cases hj
  | cons e es ih =>
    cases j with
    | zero => rfl
    | succ j2 => exact ih (stepEv s e).1 j2 (Nat.lt_of_succ_lt_succ hj)

/-- An emission at position `j` implies the destination was in the changed
set right before the flush, and the flush cleared the set. -/
theorem envContains_spec (s : SMState) (evs : List Ev) (j : Nat) (hj : j < evs.length)
    (d : String) (h : envContains ((runLog s evs).getD j none) d) :
    d ∈ (runState s (evs.take j)).statisticsChanged ∧
      (runState s (evs.take (j + 1))).statisticsChanged = [] := by
  rw [runLog_getD s evs j hj] at h
  rw [runState_take_succ s evs j hj]
  cases hev : evs.getD j Ev.flush with
  | statsLine pid stt => rw [hev] at h; simp [stepEv, envContains] at h
  | stopPlat n => rw [hev] at h; simp [stepEv, envContains] at h
  | procClosed pid => rw [hev] at h; simp [stepEv, envContains] at h
  | flush =>
    rw [hev] at h
    cases hb : broadcastStatisticsUpdate (runState s (evs.take j)) with
    | mk s1 o =>
      have hstep : stepEv (runState s (evs.take j)) Ev.flush = (s1, o) := hb
      rw [hstep] at h ⊢
      cases o with
      | none => simp [envContains] at h
      | some E =>
        obtain ⟨hclear, hsub⟩ := broadcast_emit_spec hb
        obtain ⟨x, hx, hxd⟩ := h
        refine ⟨?_, hclear⟩
        have hmem := hsub x (by simpa using hx)
        rwa [hxd] at hmem

/-- A destination id in the changed set after running a segment was there
at the start or got a stats line inside the segment. -/
theorem changed_after_run (d : String) :
    ∀ (evs : List Ev) (s : SMState),
      d ∈ (runState s evs).statisticsChanged →
      d ∈ s.statisticsChanged ∨
        ∃ i, i < evs.length ∧ isStatsLineFor d (evs.getD i Ev.flush) := by
  intro evs
  induction evs with
  | nil => intro s h; exact Or.inl h
  | cons e es ih =>
    intro s h
    rcases ih (stepEv s e).1 h with h1 | ⟨i, hi, hline⟩
    · rcases stepEv_changed_cases h1 with h2 | h2
      · exact Or.inl h2
      · exact Or.inr ⟨0, Nat.succ_pos _, h2⟩
    · exact Or.inr ⟨i + 1, Nat.succ_lt_succ hi, hline⟩

/-- C7: a destination id can appear in two statistics envelopes only with
an intervening parsed stats line for it: the envelope at the earlier
flush cleared the changed set, every envelope carries only ids from the
changed set, and only a stats line puts an id back. -/
theorem statistics_envelopes_need_fresh_stats (s : SMState) (evs : List Ev)
    (j1 j2 : Nat) (hlt : j1 < j2) (hj2 : j2 < evs.length) (d : String)
    (h1 : envContains ((runLog s evs).getD j1 none) d)
    (h2 : envContains ((runLog s evs).getD j2 none) d) :
    ∃ i, j1 < i ∧ i < j2 ∧ isStatsLineFor d (evs.getD i Ev.flush) := by
  have hj1 : j1 < evs.length := Nat.lt_trans hlt hj2
  have hclear := (envContains_spec s evs j1 hj1 d h1).2
  have hin := (envContains_spec s evs j2 hj2 d h2).1
  have hsum : j1 + 1 + (j2 - (j1 + 1)) = j2 := by omega
  have hsplit := List.take_add evs (j1 + 1) (j2 - (j1 + 1))
  rw [hsum] at hsplit
  rw [hsplit, runState_append] at hin
  rcases changed_after_run d _ _ hin with hmem | ⟨i1, hi1, hline⟩
  · rw [hclear] at hmem
    cases hmem
  · have hi1len : i1 < j2 - (j1 + 1) := by
      rw [List.length_take, List.length_drop] at hi1
      omega
    refine ⟨j1 + 1 + i1, by omega, by omega, ?_⟩
    have hgd : ((evs.drop (j1 + 1)).take (j2 - (j1 + 1))).getD i1 Ev.flush =
        evs.getD (j1 + 1 + i1) Ev.flush := by
      rw [List.getD_eq_getElem?_getD, List.getD_eq_getElem?_getD,
        List.getElem?_take_of_lt hi1len, List.getElem?_drop]
    rwa [hgd] at hline

/-- Witness for C7 on a concrete trace: both flushes of `evs7` emit an
envelope containing `a`, and the theorem yields the intervening stats
line. -/
theorem statistics_envelopes_need_fresh_stats_witness :
    ∃ i, 1 < i ∧ i < 3 ∧ isStatsLineFor "a" (evs7.getD i Ev.flush) :=
  statistics_envelopes_need_fresh_stats sm7 evs7 1 3 (by decide) (by decide) "a"
    (by decide) (by decide)

/-- C4 (amended): when the configured stream key is nonempty, `prePublish`
rejects every publish whose trailing path segment differs from it, and a
rejected publish never reaches `postPublish`: the whole state — status,
`streamInfo`, subscriber notifications — is exactly as before the
attempt. -/
theorem prePublish_rejects_mismatched_key (s : RTMPState) (path : String)
    (hkey : s.configStreamKey ≠ "")
    (hmis : trailingSegment path ≠ some s.configStreamKey) :
    (publishAttempt s path).2 = false ∧ (publishAttempt s path).1 = s := by
  have hc : s.configStreamKey ≠ "" ∧ trailingSegment path ≠ some s.configStreamKey :=
    ⟨hkey, hmis⟩
  constructor
  · simp [publishAttempt, prePublish, if_pos hc]
  · simp [publishAttempt, prePublish, if_pos hc]

/-- Witness for the amended C4: a publish to `/live/wrongkey` against a
configured key `obs` is rejected, the status stays IDLE and no STREAMING
notification is delivered. -/
theorem prePublish_rejects_mismatched_key_witness :
    (publishAttempt rtmpIdle "/live/wrongkey").2 = false ∧
    (publishAttempt rtmpIdle "/live/wrongkey").1 = rtmpIdle :=
  prePublish_rejects_mismatched_key rtmpIdle "/live/wrongkey" (by decide) (by decide)

/-- Counterexample for C4 as stated: with an empty configured stream key
the truthiness guard skips the check, so a publish whose trailing
segment (`wrongkey`) differs from the configured key is accepted and
reaches STREAMING. -/
theorem prePublish_empty_key_accepts :
    trailingSegment "/live/wrongkey" ≠ some rtmpEmptyKey.configStreamKey ∧
    (prePublish rtmpEmptyKey "/live/wrongkey").2 = true ∧
    (publishAttempt rtmpEmptyKey "/live/wrongkey").1.status = StreamStatus.streaming := by
  exact ⟨by decide, by decide, by decide⟩

end StreamHub
